import Mathlib

/-!
Verification of the answer-evaluator core: the cosine-similarity engine,
the score/feedback mapping and the evaluation orchestrator of
`src/server/routes/evaluate.ts` and `src/server/utils/embeddings.ts`
(the current fallback-capable version of the latter).

Modelling conventions: JavaScript numbers are idealised as exact real
numbers plus a distinguished NaN value (`JSNum`); `undefined` read from an
array out of bounds behaves, in arithmetic, as NaN, which is how JS coerces
it.  Strings are Lean strings; `charCodeAt`, `toLowerCase` and `.length`
are modelled at code-point granularity (exact on the ASCII texts the code
manipulates).  The remote HTTP interactions (Python backend, HuggingFace
API) are modelled as explicit outcome parameters of the functions that
perform them.
-/

/-- A JavaScript number: an exact real or NaN.  Out-of-bounds array reads
yield `undefined`, which every arithmetic operation coerces to NaN, so the
NaN constructor also stands for `undefined` occurring in arithmetic. -/
inductive JSNum where
  | nan : JSNum
  | num : ℝ → JSNum

namespace JSNum

/-- JS `x + y`: NaN absorbs. -/
def add : JSNum → JSNum → JSNum
  | num x, num y => num (x + y)
  | _, _ => nan

/-- JS `x * y`: NaN absorbs. -/
def mul : JSNum → JSNum → JSNum
  | num x, num y => num (x * y)
  | _, _ => nan

/-- JS `Math.sqrt`: NaN on NaN and on negative arguments. -/
noncomputable def sqrt : JSNum → JSNum
  | num x => if x < 0 then nan else num (Real.sqrt x)
  | nan => nan

/-- JS `x / y`.  Every division in the modelled code is guarded by a
`=== 0` test on the divisor or has a nonzero literal divisor, so the
`y = 0` branch (JS: ±Infinity or NaN) is unreachable; we map it to NaN. -/
noncomputable def div : JSNum → JSNum → JSNum
  | num x, num y => if y = 0 then nan else num (x / y)
  | _, _ => nan

/-- JS `Math.round`: half-up (toward +∞), NaN on NaN. -/
noncomputable def round : JSNum → JSNum
  | num x => num ((⌊x + 1/2⌋ : ℤ) : ℝ)
  | nan => nan

/-- JS `Math.min`: NaN if either argument is NaN. -/
noncomputable def min : JSNum → JSNum → JSNum
  | num x, num y => num (Min.min x y)
  | _, _ => nan

/-- JS `Math.max`: NaN if either argument is NaN. -/
noncomputable def max : JSNum → JSNum → JSNum
  | num x, num y => num (Max.max x y)
  | _, _ => nan

/-- JS `x >= c` for a numeric literal `c`: false when `x` is NaN. -/
def ge (x : JSNum) (c : ℝ) : Prop :=
  match x with
  | num v => c ≤ v
  | nan => False

end JSNum

/-- JS `xs[i]` on an array of numbers: the element when `i` is in bounds,
`undefined` (modelled as NaN, see `JSNum`) when it is not. -/
def jsGet (xs : List ℝ) (i : ℕ) : JSNum :=
  match xs.get? i with
  | some x => JSNum.num x
  | none => JSNum.nan

/-- The accumulator of the `for (let i = 0; i < a.length; i++)` loop of
`cosineSimilarity` after `n` iterations: `(dotProduct, normA, normB)`.
Each iteration adds `a[i]*b[i]`, `a[i]*a[i]` and `b[i]*b[i]`. -/
def cosLoop (a b : List ℝ) : ℕ → JSNum × JSNum × JSNum
  | 0 => (JSNum.num 0, JSNum.num 0, JSNum.num 0)
  | n + 1 =>
    let acc := cosLoop a b n
    (acc.1.add ((jsGet a n).mul (jsGet b n)),
     acc.2.1.add ((jsGet a n).mul (jsGet a n)),
     acc.2.2.add ((jsGet b n).mul (jsGet b n)))

open Classical in
/-- `cosineSimilarity` of `src/server/utils/embeddings.ts`: returns 0 when
either array is empty, runs the loop up to `a.length`, and returns 0 when
the denominator `sqrt(normA) * sqrt(normB)` is `=== 0`, else the
quotient. -/
noncomputable def cosineSimilarity (a b : List ℝ) : JSNum :=
  if a.length = 0 ∨ b.length = 0 then JSNum.num 0
  else
    let acc := cosLoop a b a.length
    let denominator := (acc.2.1.sqrt).mul (acc.2.2.sqrt)
    if denominator = JSNum.num 0 then JSNum.num 0
    else acc.1.div denominator

/-- The score of the fallback response of `handleEvaluate`
(`src/server/routes/evaluate.ts`): `Math.round(similarity * 5 * 10) / 10`
then `Math.max(0, Math.min(5, score))`. -/
noncomputable def evalScore (similarity : JSNum) : JSNum :=
  let score := (((similarity.mul (JSNum.num 5)).mul (JSNum.num 10)).round).div (JSNum.num 10)
  JSNum.max (JSNum.num 0) (JSNum.min (JSNum.num 5) score)

/-- The similarity field of the fallback response of `handleEvaluate`:
`Math.round(similarity * 1000) / 1000` — rounded, not clamped. -/
noncomputable def evalSimilarityField (similarity : JSNum) : JSNum :=
  ((similarity.mul (JSNum.num 1000)).round).div (JSNum.num 1000)

/-- The `score >= 90` message of `generateFeedback`. -/
def fbExcellent : String :=
  "Excellent answer! Your response demonstrates comprehensive understanding of the key concepts. Well-structured and complete."

/-- The `score >= 80` message of `generateFeedback`. -/
def fbVeryGood : String :=
  "Very good answer with strong understanding of the main points. Consider adding more specific examples or technical details for improvement."

/-- The `score >= 70` message of `generateFeedback`. -/
def fbGood : String :=
  "Good answer covering most key concepts. You could enhance it by including more specific details or examples mentioned in the reference answer."

/-- The `score >= 60` message of `generateFeedback`. -/
def fbBasic : String :=
  "Your answer captures the basic idea but lacks some important details. Review the key concepts and try to include more specific information."

/-- The `score >= 50` message of `generateFeedback`. -/
def fbHalf : String :=
  "Your answer shows partial understanding but is missing significant details. Consider reviewing the reference answer and incorporating more key concepts."

/-- The `score >= 40` message of `generateFeedback`. -/
def fbSubstantial : String :=
  "Your answer addresses some concepts but needs substantial improvement. Focus on understanding the core concepts better before attempting answers."

/-- The final (else) message of `generateFeedback`. -/
def fbRevision : String :=
  "Your answer needs significant revision. Please review the key concepts thoroughly and practice similar questions."

open Classical in
/-- `generateFeedback` of `src/server/utils/embeddings.ts`: rounds
`similarity * 100` to a percentage and walks the `>=` threshold chain.
The two keyword arguments are unused by the source as well. -/
noncomputable def generateFeedback (similarity : JSNum)
    (_modelKeywords _studentKeywords : List String) : String :=
  let score := (similarity.mul (JSNum.num 100)).round
  if score.ge 90 then fbExcellent
  else if score.ge 80 then fbVeryGood
  else if score.ge 70 then fbGood
  else if score.ge 60 then fbBasic
  else if score.ge 50 then fbHalf
  else if score.ge 40 then fbSubstantial
  else fbRevision

/-- Spec-side scorer, following the spec's words (§4.3):
`clamp(round(similarity * 5, 1 decimal), 0, 5)`, rounding half up. -/
noncomputable def specScore (s : ℝ) : ℝ :=
  Max.max 0 (Min.min 5 (((⌊s * 5 * 10 + 1/2⌋ : ℤ) : ℝ) / 10))

/-- Spec-side feedback table: the message selected by comparing an integer
percentage `p` against the inclusive thresholds 90, 80, 70, 60, 50, 40. -/
def bucketMsg (p : ℤ) : String :=
  if 90 ≤ p then fbExcellent
  else if 80 ≤ p then fbVeryGood
  else if 70 ≤ p then fbGood
  else if 60 ≤ p then fbBasic
  else if 50 ≤ p then fbHalf
  else if 40 ≤ p then fbSubstantial
  else fbRevision

/-- The squared Euclidean norm of a vector, used to state the claims about
zero-norm inputs: the norm of `v` is zero exactly when `normSq v = 0`. -/
def normSq (v : List ℝ) : ℝ :=
  ∑ i in Finset.range v.length, v.getD i 0 * v.getD i 0

/-! ### The local fallback embedding (`getFallbackEmbedding`)

String processing is modelled at code-point granularity: JS `.length`,
`charCodeAt` and `toLowerCase` agree with this model on ASCII text.
Embedding vectors are rational (every JS float is a rational number). -/

/-- The `commonWords` set excluded from content words in
`getFallbackEmbedding` (`src/server/utils/embeddings.ts`). -/
def commonWords : List String :=
  ["the", "is", "at", "which", "on", "and", "a", "an", "as", "are",
   "was", "were", "be", "been", "being", "have", "has", "had"]

/-- JS `w.replace(/[^a-z]/g, "")`: keep only the letters `a`–`z`. -/
def keepAlpha (w : String) : String :=
  ⟨w.toList.filter fun c => 97 ≤ c.toNat && c.toNat ≤ 122⟩

/-- JS `/[a-z]/.test w`. -/
def hasAlpha (w : String) : Bool :=
  w.toList.any fun c => 97 ≤ c.toNat && c.toNat ≤ 122

/-- JS `s.split(/\s+/)` on an already trimmed string: `[""]` for the empty
string, else the maximal runs of non-whitespace characters. -/
def jsSplitWs (s : String) : List String :=
  if s = "" then [""]
  else (s.split fun c => c.isWhitespace).filter fun w => w ≠ ""

/-- The hash contribution of one word in `getFallbackEmbedding`:
`hash += word.charCodeAt(k) * (k + 1)` over the word's characters. -/
def wordHash (w : String) : ℕ :=
  (w.toList.enum.map fun p => p.2.toNat * (p.1 + 1)).sum

/-- The hash of chunk `i` of the content words: words `j` with
`i*5 ≤ j < (i+1)*5` and `j < contentWords.length`. -/
def chunkHash (ws : List String) (i : ℕ) : ℕ :=
  (((ws.drop (i * 5)).take 5).map wordHash).sum

/-- `getFallbackEmbedding` of `src/server/utils/embeddings.ts`: five basic
text statistics followed by ten hashed-bucket features of the content
words. -/
def getFallbackEmbedding (text : String) : List ℚ :=
  let normalized := text.toLower.trim
  let words := jsSplitWs normalized
  let contentWords := words.filter fun w =>
    2 < w.length && !(commonWords.contains (keepAlpha w)) && hasAlpha w
  [ (normalized.length : ℚ) / 100,
    (words.length : ℚ) / 10,
    ((normalized.toList.countP fun c => c == '.' || c == '!' || c == '?' : ℕ) : ℚ),
    ((normalized.toList.countP fun c => c == '?' : ℕ) : ℚ),
    (words.dedup.length : ℚ) / 10 ]
  ++ (List.range 10).map fun i => ((chunkHash contentWords i % 100 : ℕ) : ℚ) / 100

/-- The outcome of the HuggingFace call inside `getEmbedding`: no API key
configured, the `fetch`/`json()` threw (network error, timeout), a
non-success status, a success whose JSON parsed to an array of embedding
rows, a success whose JSON is a nonempty array whose first element is
`null` (or `undefined`) rather than a row — the `[null]` shape — or a
success whose JSON is anything else (not a nonempty array). -/
inductive HFOutcome where
  | noApiKey
  | fetchError
  | badStatus
  | okArr (rows : List (List ℚ))
  | okArrNull
  | okOther

/-- What `getEmbedding` evaluates to: an actual array of numbers, or the
`null` first element of a malformed success body such as `[null]`, passed
through as-is — accessing `.length` on it downstream throws a TypeError. -/
inductive EmbedResult where
  | vec (v : List ℚ)
  | nullv

/-- `getEmbedding` of `src/server/utils/embeddings.ts` (the
fallback-capable version, lines 236–273 of the concatenated source): uses
the fallback embedding when there is no API key, when the call throws or
returns a non-success status, or when the JSON is not a nonempty array.
The success check is only `Array.isArray(result) && result.length > 0`,
after which `result[0]` is returned unconditionally: a `[null]` body
yields `null`, not the fallback.  Totality in the outcome models that the
function itself returns instead of (re)throwing. -/
def getEmbedding (o : HFOutcome) (text : String) : EmbedResult :=
  match o with
  | .noApiKey => .vec (getFallbackEmbedding text)
  | .fetchError => .vec (getFallbackEmbedding text)
  | .badStatus => .vec (getFallbackEmbedding text)
  | .okOther => .vec (getFallbackEmbedding text)
  | .okArr [] => .vec (getFallbackEmbedding text)
  | .okArr (r :: _) => .vec r
  | .okArrNull => .nullv

/-- The remote outcome's success body, if any, is well formed enough that
`getEmbedding` produces an actual vector: every outcome except the
`[null]`-shaped success. -/
def hfVecOutcome : HFOutcome → Prop
  | .okArrNull => False
  | _ => True

/-! ### The evaluation orchestrator (`handleEvaluate`) -/

/-- The request body of POST `/api/evaluate`: each field may be missing. -/
structure EvalRequest where
  question : Option String
  modelAnswer : Option String
  studentAnswer : Option String

/-- JS falsiness of an optional string field: missing or empty. -/
def falsy : Option String → Bool
  | none => true
  | some s => s == ""

/-- The outcome of the Python-backend call inside `handleEvaluate`:
a success with parsed score/similarity/feedback, a success whose JSON
parse threw, a non-success status, or a thrown network error. -/
inductive PyOutcome where
  | ok (score similarity : JSNum) (feedback : String)
  | okBadJson
  | badStatus
  | fetchError

/-- What `handleEvaluate` sends back: a 200 with the three result fields,
the 400 validation error, or the 500 of the outer catch. -/
inductive EvalResponse where
  | ok (score similarity : JSNum) (feedback : String)
  | validationError
  | serverError

/-- An external call the handler makes, recorded in order. -/
inductive ExtCall where
  | pythonCall
  | embeddingCall

/-- The Python-backend call failed (anything but a success with parseable
JSON), so `handleEvaluate` proceeds to the JavaScript fallback. -/
def pyFailed : PyOutcome → Prop
  | .ok _ _ _ => False
  | _ => True

/-- The rational embedding vector seen as a vector of reals (JS has one
number type; the model splits it into exact layers). -/
def toRealVec (v : List ℚ) : List ℝ :=
  v.map fun q => (q : ℝ)

/-- The JavaScript fallback path of `handleEvaluate`
(`src/server/routes/evaluate.ts`): embed both answers, take their cosine
similarity, and build the response from `evalScore`,
`evalSimilarityField` and `generateFeedback similarity [] []`.  When
either embedding is the passed-through `null` of a malformed success
body, `cosineSimilarity` throws on `.length` and the outer catch of
`handleEvaluate` answers with the 500 response instead. -/
noncomputable def localEval (hm hs : HFOutcome) (req : EvalRequest) : EvalResponse :=
  match getEmbedding hm (req.modelAnswer.getD ("")),
      getEmbedding hs (req.studentAnswer.getD ("")) with
  | .vec modelEmbedding, .vec studentEmbedding =>
    let similarity := cosineSimilarity (toRealVec modelEmbedding) (toRealVec studentEmbedding)
    .ok (evalScore similarity) (evalSimilarityField similarity)
      (generateFeedback similarity [] [])
  | _, _ => .serverError

/-- `handleEvaluate` of `src/server/routes/evaluate.ts`, with the remote
outcomes as parameters, paired with the list of external calls it makes:
validate the two answers (400, no calls), try the Python backend, and on
any failure of it fall back to `localEval` (two embedding calls). -/
noncomputable def handleEvaluate (py : PyOutcome) (hm hs : HFOutcome)
    (req : EvalRequest) : EvalResponse × List ExtCall :=
  if falsy req.modelAnswer || falsy req.studentAnswer then (.validationError, [])
  else
    match py with
    | .ok sc sim fb => (.ok sc sim fb, [.pythonCall])
    | _ => (localEval hm hs req, [.pythonCall, .embeddingCall, .embeddingCall])

/-! ### Helper lemmas -/

theorem JSNum.mulComm (x y : JSNum) : x.mul y = y.mul x := by
  cases x <;> cases y <;> simp [JSNum.mul, mul_comm]

theorem JSNum.mul_num (x y : ℝ) :
    (JSNum.num x).mul (JSNum.num y) = JSNum.num (x * y) := rfl

theorem JSNum.div_num (x y : ℝ) :
    (JSNum.num x).div (JSNum.num y) =
      if y = 0 then JSNum.nan else JSNum.num (x / y) := rfl

theorem JSNum.sqrt_num {x : ℝ} (h : 0 ≤ x) :
    (JSNum.num x).sqrt = JSNum.num (Real.sqrt x) := by
  simp [JSNum.sqrt, not_lt.mpr h]

theorem JSNum.sqrt_num_zero : (JSNum.num 0).sqrt = JSNum.num 0 := by
  simp [JSNum.sqrt, Real.sqrt_zero]

theorem jsGet_of_lt {xs : List ℝ} {i : ℕ} (h : i < xs.length) :
    jsGet xs i = JSNum.num (xs.getD i 0) := by
  simp [jsGet, List.getD_eq_getElem?_getD, List.getElem?_eq_getElem h, List.get?_eq_getElem?]

theorem jsGet_of_ge {xs : List ℝ} {i : ℕ} (h : xs.length ≤ i) :
    jsGet xs i = JSNum.nan := by
  simp [jsGet, List.get?_eq_getElem?, List.getElem?_eq_none h]

/-- After `n` in-bounds iterations the loop accumulator holds the exact
partial dot product and partial squared norms. -/
theorem cosLoop_spec (a b : List ℝ) :
    ∀ n, n ≤ a.length → n ≤ b.length →
    cosLoop a b n =
      (JSNum.num (∑ i in Finset.range n, a.getD i 0 * b.getD i 0),
       JSNum.num (∑ i in Finset.range n, a.getD i 0 * a.getD i 0),
       JSNum.num (∑ i in Finset.range n, b.getD i 0 * b.getD i 0)) := by
  intro n
  induction n with
  | zero => intro _ _; simp [cosLoop]
  | succ n ih =>
    intro ha hb
    have ha' : n < a.length := lt_of_lt_of_le (Nat.lt_succ_self n) ha
    have hb' : n < b.length := lt_of_lt_of_le (Nat.lt_succ_self n) hb
    rw [cosLoop, ih (le_of_lt ha') (le_of_lt hb'),
      jsGet_of_lt ha', jsGet_of_lt hb']
    simp [JSNum.add, JSNum.mul, Finset.sum_range_succ]

/-- Swapping the two arrays swaps the two norm accumulators and keeps the
dot product. The loop bound is arbitrary: the asymmetry of
`cosineSimilarity` comes only from the bound `a.length`. -/
theorem cosLoop_swap (a b : List ℝ) :
    ∀ n, cosLoop b a n =
      ((cosLoop a b n).1, (cosLoop a b n).2.2, (cosLoop a b n).2.1) := by
  intro n
  induction n with
  | zero => simp [cosLoop]
  | succ n ih => rw [cosLoop, ih, cosLoop, JSNum.mulComm (jsGet b n) (jsGet a n)]

theorem normSq_nonneg (v : List ℝ) : 0 ≤ normSq v := by
  exact Finset.sum_nonneg fun i _ => mul_self_nonneg _

/-- A vector of squared norm zero has only zero entries. -/
theorem normSq_eq_zero_entry {v : List ℝ} (h : normSq v = 0) :
    ∀ i, v.getD i 0 = 0 := by
  intro i
  by_cases hi : i < v.length
  · have := (Finset.sum_eq_zero_iff_of_nonneg
      (fun j _ => mul_self_nonneg (v.getD j 0))).mp h i (Finset.mem_range.mpr hi)
    exact mul_self_eq_zero.mp this
  · simp [List.getD_eq_getElem?_getD, List.getElem?_eq_none (le_of_not_lt hi)]

/-- Every outcome other than the `[null]`-shaped success makes
`getEmbedding` produce an actual vector. -/
theorem getEmbedding_vec {o : HFOutcome} (h : hfVecOutcome o) (t : String) :
    ∃ v, getEmbedding o t = EmbedResult.vec v := by
  cases o with
  | noApiKey => exact ⟨_, rfl⟩
  | fetchError => exact ⟨_, rfl⟩
  | badStatus => exact ⟨_, rfl⟩
  | okOther => exact ⟨_, rfl⟩
  | okArr rows =>
    cases rows with
    | nil => exact ⟨_, rfl⟩
    | cons r rest => exact ⟨r, rfl⟩
  | okArrNull => exact h.elim

/-! ### The claims -/

/-- C1: for every similarity `s` in `[0,1]` on the local evaluation path,
the score field of the response equals `clamp(round(s*5, 1 decimal), 0, 5)`
(the spec-side `specScore`); the witness instantiates `s = 0.84`, giving
score `4.2`. -/
theorem evalScore_eq_specScore (s : ℝ) (h0 : 0 ≤ s) (h1 : s ≤ 1) :
    evalScore (JSNum.num s) = JSNum.num (specScore s) := by
  simp [evalScore, specScore, JSNum.mul, JSNum.round, JSNum.div, JSNum.min, JSNum.max]

/-- C1 witness: similarity `0.84` yields score `4.2`. -/
theorem evalScore_at_084 : evalScore (JSNum.num (84/100)) = JSNum.num (21/5) := by
  have h := evalScore_eq_specScore (84/100) (by norm_num) (by norm_num)
  rw [h]
  have hf : ⌊(84:ℝ)/100 * 5 * 10 + 1/2⌋ = 42 := by
    rw [Int.floor_eq_iff]
    norm_num
  simp only [specScore, hf]
  norm_num [min_def, max_def]

/-- C2 counterexample: at similarity `0.895` the unrounded percentage
`89.5` lies in the claimed `[80, 90)` bucket of the "very good" message,
but the code rounds the percentage to `90` first and returns the
"excellent" message, so selecting by the unrounded percentage `100*s`
misdescribes `generateFeedback`. -/
theorem generateFeedback_unrounded_cex :
    ((80:ℝ) ≤ 100 * (179/200) ∧ 100 * (179/200 : ℝ) < 90) ∧
    generateFeedback (JSNum.num (179/200)) [] [] = fbExcellent ∧
    fbExcellent ≠ fbVeryGood := by
  refine ⟨⟨by norm_num, by norm_num⟩, ?_, by decide⟩
  have hf : ⌊(179:ℝ)/200 * 100 + 1/2⌋ = 90 := by
    rw [Int.floor_eq_iff]
    norm_num
  simp only [generateFeedback, JSNum.mul, JSNum.round, JSNum.ge, hf]
  norm_num

/-- C2 amended: the feedback string is selected by comparing the rounded
similarity percentage `round(100*s)` (JS `Math.round`, half-up) against
the non-overlapping descending inclusive thresholds 90, 80, 70, 60, 50,
40, i.e. `generateFeedback` agrees with the spec-side threshold table
`bucketMsg` applied to the rounded percentage. -/
theorem generateFeedback_eq_bucketMsg (s : ℝ) (kw1 kw2 : List String) :
    generateFeedback (JSNum.num s) kw1 kw2 = bucketMsg ⌊s * 100 + 1/2⌋ := by
  simp only [generateFeedback, bucketMsg, JSNum.mul, JSNum.round, JSNum.ge]
  norm_cast

/-- C3 counterexample: `b = [0]` has Euclidean norm zero, yet
`cosineSimilarity [1, 0] [0]` is NaN, not 0: the loop runs to
`a.length = 2` and reads `b[1]`, which is `undefined`. -/
theorem cosineSimilarity_zero_norm_cex :
    normSq [(0:ℝ)] = 0 ∧
    cosineSimilarity [1, 0] [0] = JSNum.nan ∧
    JSNum.nan ≠ JSNum.num 0 := by
  refine ⟨by simp [normSq], ?_, fun hc => JSNum.noConfusion hc⟩
  simp only [cosineSimilarity, List.length_cons, List.length_nil, cosLoop, jsGet,
    List.get?_cons_succ, List.get?_cons_zero, List.get?_nil,
    JSNum.add, JSNum.mul, JSNum.sqrt, JSNum.div]
  norm_num [Real.sqrt_one]
  exact fun h => JSNum.noConfusion h

/-- C3 amended: `cosineSimilarity a b` returns exactly 0 when `a` or `b`
is empty, and — provided the first vector is not longer than the second,
so that the loop stays in bounds — also whenever either vector's
Euclidean norm is zero. -/
theorem cosineSimilarity_zero_norm (a b : List ℝ)
    (h : a = [] ∨ b = [] ∨ (a.length ≤ b.length ∧ (normSq a = 0 ∨ normSq b = 0))) :
    cosineSimilarity a b = JSNum.num 0 := by
  rcases h with ha | hb | ⟨hlen, hz⟩
  · simp [cosineSimilarity, ha]
  · simp [cosineSimilarity, hb]
  · by_cases hae : a.length = 0
    · simp [cosineSimilarity, hae]
    by_cases hbe : b.length = 0
    · simp [cosineSimilarity, hbe]
    rw [cosineSimilarity, if_neg (by push_neg; exact ⟨hae, hbe⟩),
      cosLoop_spec a b a.length le_rfl hlen]
    simp only [normSq] at hz
    rcases hz with hza | hzb
    · have hent : ∀ i, a.getD i 0 = 0 := normSq_eq_zero_entry hza
      have hD : (∑ i in Finset.range a.length, a.getD i 0 * b.getD i 0) = 0 :=
        Finset.sum_eq_zero fun i _ => by rw [hent i, zero_mul]
      have hBnn : (0:ℝ) ≤ ∑ i in Finset.range a.length, b.getD i 0 * b.getD i 0 :=
        Finset.sum_nonneg fun i _ => mul_self_nonneg _
      rw [hza, hD]
      dsimp only
      rw [JSNum.sqrt_num_zero, JSNum.sqrt_num hBnn, JSNum.mul_num, zero_mul,
        if_pos rfl]
    · have hent : ∀ i, b.getD i 0 = 0 := normSq_eq_zero_entry hzb
      have hD : (∑ i in Finset.range a.length, a.getD i 0 * b.getD i 0) = 0 :=
        Finset.sum_eq_zero fun i _ => by rw [hent i, mul_zero]
      have hB : (∑ i in Finset.range a.length, b.getD i 0 * b.getD i 0) = 0 :=
        Finset.sum_eq_zero fun i _ => by rw [hent i, mul_zero]
      have hAnn : (0:ℝ) ≤ ∑ i in Finset.range a.length, a.getD i 0 * a.getD i 0 :=
        Finset.sum_nonneg fun i _ => mul_self_nonneg _
      rw [hD, hB]
      dsimp only
      rw [JSNum.sqrt_num_zero, JSNum.sqrt_num hAnn, JSNum.mul_num, mul_zero,
        if_pos rfl]

/-- C3 witness: both vectors `[0]` — equal lengths, zero norms — give
similarity exactly 0. -/
theorem cosineSimilarity_zero_norm_witness :
    cosineSimilarity [(0:ℝ)] [(0:ℝ)] = JSNum.num 0 :=
  cosineSimilarity_zero_norm [0] [0]
    (Or.inr (Or.inr ⟨le_rfl, Or.inl (by simp [normSq])⟩))

/-- C4 counterexample: with the Python backend failing and the
HuggingFace call succeeding with the malformed body `[null]`,
`getEmbedding` passes `null` through, `cosineSimilarity` throws on
`.length`, and the handler surfaces the 500 — so the fallback path does
not always succeed and the failure is surfaced. -/
theorem handleEvaluate_fallback_500_cex :
    pyFailed PyOutcome.badStatus ∧
    (handleEvaluate PyOutcome.badStatus HFOutcome.okArrNull (HFOutcome.okArr [[1]])
        ⟨none, some ("m"), some ("s")⟩).1 = EvalResponse.serverError ∧
    ¬ ∃ sc sim fb, (handleEvaluate PyOutcome.badStatus HFOutcome.okArrNull
        (HFOutcome.okArr [[1]]) ⟨none, some ("m"), some ("s")⟩).1 =
      EvalResponse.ok sc sim fb := by
  refine ⟨trivial, rfl, ?_⟩
  rintro ⟨sc, sim, fb, h⟩
  exact EvalResponse.noConfusion
    (show EvalResponse.serverError = EvalResponse.ok sc sim fb from h)

/-- C4 amended: whenever the Python backend call fails (non-success
status, thrown network error, or unparseable body), `handleEvaluate` on a
valid request returns exactly the local JavaScript path's response, and
that response is a complete success result `ok score similarity feedback`
provided both embedding calls produce actual number arrays — which every
genuinely failing or keyless remote embedding call does, via the local
fallback embedding.  (A malformed `[null]` success body instead crashes
the fallback path into the 500, see the counterexample.) -/
theorem handleEvaluate_fallback_ok (py : PyOutcome) (hm hs : HFOutcome)
    (req : EvalRequest) (hf : pyFailed py)
    (hm' : falsy req.modelAnswer = false) (hs' : falsy req.studentAnswer = false)
    (hvm : hfVecOutcome hm) (hvs : hfVecOutcome hs) :
    (handleEvaluate py hm hs req).1 = localEval hm hs req ∧
    ∃ sc sim fb, localEval hm hs req = EvalResponse.ok sc sim fb := by
  constructor
  · cases py with
    | ok a b c => exact absurd hf (by simp [pyFailed])
    | okBadJson => simp [handleEvaluate, hm', hs']
    | badStatus => simp [handleEvaluate, hm', hs']
    | fetchError => simp [handleEvaluate, hm', hs']
  · obtain ⟨v1, e1⟩ := getEmbedding_vec hvm (req.modelAnswer.getD (""))
    obtain ⟨v2, e2⟩ := getEmbedding_vec hvs (req.studentAnswer.getD (""))
    refine ⟨evalScore (cosineSimilarity (toRealVec v1) (toRealVec v2)),
      evalSimilarityField (cosineSimilarity (toRealVec v1) (toRealVec v2)),
      generateFeedback (cosineSimilarity (toRealVec v1) (toRealVec v2)) [] [], ?_⟩
    simp only [localEval, e1, e2]

/-- C4 witness: a failed (non-success) Python call on a valid request
with keyless embedding calls still produces the local path's success
response. -/
theorem handleEvaluate_fallback_ok_witness :
    (handleEvaluate PyOutcome.badStatus HFOutcome.noApiKey HFOutcome.noApiKey
        ⟨none, some ("m"), some ("s")⟩).1 =
      localEval HFOutcome.noApiKey HFOutcome.noApiKey ⟨none, some ("m"), some ("s")⟩ ∧
    ∃ sc sim fb, localEval HFOutcome.noApiKey HFOutcome.noApiKey
        ⟨none, some ("m"), some ("s")⟩ = EvalResponse.ok sc sim fb :=
  handleEvaluate_fallback_ok PyOutcome.badStatus HFOutcome.noApiKey HFOutcome.noApiKey
    ⟨none, some ("m"), some ("s")⟩ trivial rfl rfl trivial trivial

/-- C5 counterexample: the malformed success body `[null]` is not
replaced by the fallback embedding — `result[0]`, here `null`, is passed
through — and the overall evaluation request then fails with the 500
response. -/
theorem getEmbedding_malformed_cex :
    getEmbedding HFOutcome.okArrNull ("t") = EmbedResult.nullv ∧
    EmbedResult.nullv ≠ EmbedResult.vec (getFallbackEmbedding ("t")) ∧
    (handleEvaluate PyOutcome.badStatus HFOutcome.okArrNull HFOutcome.noApiKey
        ⟨none, some ("m"), some ("s")⟩).1 = EvalResponse.serverError :=
  ⟨rfl, fun h => EmbedResult.noConfusion h, rfl⟩

/-- C5 amended: `getEmbedding` returns the deterministic lexical fallback
embedding instead of throwing when the remote call errors or times out,
when the status is non-success, and when the body is not a nonempty
array; but for any nonempty-array body it returns `result[0]`
unconditionally, so the `[null]` body passes `null` through rather than
falling back (and the request later fails, see the counterexample). -/
theorem getEmbedding_fallback_cases :
    (∀ text, getEmbedding HFOutcome.fetchError text =
      EmbedResult.vec (getFallbackEmbedding text)) ∧
    (∀ text, getEmbedding HFOutcome.badStatus text =
      EmbedResult.vec (getFallbackEmbedding text)) ∧
    (∀ text, getEmbedding HFOutcome.okOther text =
      EmbedResult.vec (getFallbackEmbedding text)) ∧
    (∀ text, getEmbedding (HFOutcome.okArr []) text =
      EmbedResult.vec (getFallbackEmbedding text)) ∧
    (∀ r rest text, getEmbedding (HFOutcome.okArr (r :: rest)) text = EmbedResult.vec r) ∧
    (∀ text, getEmbedding HFOutcome.okArrNull text = EmbedResult.nullv) :=
  ⟨fun _ => rfl, fun _ => rfl, fun _ => rfl, fun _ => rfl, fun _ _ _ => rfl, fun _ => rfl⟩

/-- C6: a request whose `modelAnswer` or `studentAnswer` is missing or
empty gets the 400 validation error and triggers no external call at all
— neither the Python backend nor any embedding-provider call. -/
theorem handleEvaluate_validation (py : PyOutcome) (hm hs : HFOutcome)
    (req : EvalRequest)
    (h : falsy req.modelAnswer = true ∨ falsy req.studentAnswer = true) :
    handleEvaluate py hm hs req = (EvalResponse.validationError, []) := by
  rcases h with h | h <;> cases py <;> simp [handleEvaluate, h]

/-- C6 witness: an empty `modelAnswer` yields the validation error with
an empty call trace. -/
theorem handleEvaluate_validation_witness :
    handleEvaluate PyOutcome.fetchError HFOutcome.noApiKey HFOutcome.noApiKey
      ⟨none, some (""), some ("s")⟩ = (EvalResponse.validationError, []) :=
  handleEvaluate_validation PyOutcome.fetchError HFOutcome.noApiKey HFOutcome.noApiKey
    ⟨none, some (""), some ("s")⟩ (Or.inl rfl)

/-- C7 counterexample: `cosineSimilarity` is not symmetric for all pairs:
with `a = [1]`, `b = [1, 1]` the forward direction is 1 while the swapped
direction reads past the end of `[1]` and is NaN. -/
theorem cosineSimilarity_asymm_cex :
    cosineSimilarity [(1:ℝ)] [1, 1] = JSNum.num 1 ∧
    cosineSimilarity [(1:ℝ), 1] [1] = JSNum.nan ∧
    JSNum.num 1 ≠ JSNum.nan := by
  refine ⟨?_, ?_, fun hc => JSNum.noConfusion hc⟩
  · simp only [cosineSimilarity, List.length_cons, List.length_nil, cosLoop, jsGet,
      List.get?_cons_succ, List.get?_cons_zero, List.get?_nil,
      JSNum.add, JSNum.mul, JSNum.sqrt, JSNum.div]
    norm_num [Real.sqrt_one]
  · simp only [cosineSimilarity, List.length_cons, List.length_nil, cosLoop, jsGet,
      List.get?_cons_succ, List.get?_cons_zero, List.get?_nil,
      JSNum.add, JSNum.mul, JSNum.sqrt, JSNum.div]
    norm_num [Real.sqrt_one]
    exact fun h => JSNum.noConfusion h

/-- C7 amended: `cosineSimilarity a b = cosineSimilarity b a` for all
pairs of vectors of equal length (the only asymmetry is the loop bound
`a.length`). -/
theorem cosineSimilarity_symm (a b : List ℝ) (h : a.length = b.length) :
    cosineSimilarity a b = cosineSimilarity b a := by
  rw [cosineSimilarity, cosineSimilarity, cosLoop_swap a b, h]
  dsimp only
  by_cases hb : b.length = 0
  · simp [hb]
  · simp only [hb, or_self, if_false]
    rw [JSNum.mulComm ((cosLoop a b b.length).2.1.sqrt) ((cosLoop a b b.length).2.2.sqrt)]

/-- C7 witness: symmetry at the equal-length pair `[1]`, `[0]`. -/
theorem cosineSimilarity_symm_witness :
    cosineSimilarity [(1:ℝ)] [(0:ℝ)] = cosineSimilarity [(0:ℝ)] [(1:ℝ)] :=
  cosineSimilarity_symm [1] [0] rfl

/-- C8: for every vector of nonzero Euclidean norm, the cosine similarity
of the vector with itself is exactly 1 under exact arithmetic. -/
theorem cosineSimilarity_self (v : List ℝ) (h : normSq v ≠ 0) :
    cosineSimilarity v v = JSNum.num 1 := by
  have hv : ¬ v.length = 0 := by
    intro h0
    exact h (by simp only [normSq, h0, Finset.range_zero, Finset.sum_empty])
  rw [cosineSimilarity, if_neg (by push_neg; exact ⟨hv, hv⟩),
    cosLoop_spec v v v.length le_rfl le_rfl]
  dsimp only
  simp only [normSq] at h
  have hnn : (0:ℝ) ≤ ∑ i in Finset.range v.length, v.getD i 0 * v.getD i 0 :=
    Finset.sum_nonneg fun i _ => mul_self_nonneg _
  rw [JSNum.sqrt_num hnn, JSNum.mul_num, Real.mul_self_sqrt hnn,
    if_neg (fun hc => h (by injection hc)), JSNum.div_num, if_neg h, div_self h]

/-- C8 witness: the vector `[1]` compared with itself gives similarity 1. -/
theorem cosineSimilarity_self_witness :
    cosineSimilarity [(1:ℝ)] [(1:ℝ)] = JSNum.num 1 :=
  cosineSimilarity_self [1] (by norm_num [normSq])

/-- C9 counterexample: the full pipeline, with the two provider calls
returning the one-dimensional embeddings `[1]` and `[-1]`, answers with
similarity exactly `-1`: the similarity field is only rounded, never
clamped into `[0,1]`. -/
theorem similarity_not_clamped_cex :
    (handleEvaluate PyOutcome.badStatus (HFOutcome.okArr [[1]]) (HFOutcome.okArr [[-1]])
        ⟨none, some ("m"), some ("s")⟩).1 =
      EvalResponse.ok (JSNum.num 0) (JSNum.num (-1)) fbRevision ∧
    ¬ ((0:ℝ) ≤ -1) := by
  refine ⟨?_, by norm_num⟩
  have hsim : cosineSimilarity [(1:ℝ)] [(-1:ℝ)] = JSNum.num (-1) := by
    simp only [cosineSimilarity, List.length_cons, List.length_nil, cosLoop, jsGet,
      List.get?_cons_zero, JSNum.add, JSNum.mul, JSNum.sqrt, JSNum.div]
    norm_num [Real.sqrt_one]
  have hscore : evalScore (JSNum.num (-1)) = JSNum.num 0 := by
    have hf : ⌊(-1:ℝ) * 5 * 10 + 1/2⌋ = -50 := by
      rw [Int.floor_eq_iff]
      norm_num
    simp only [evalScore, JSNum.mul, JSNum.round, JSNum.div, JSNum.min, JSNum.max, hf]
    norm_num [min_def, max_def]
  have hsimf : evalSimilarityField (JSNum.num (-1)) = JSNum.num (-1) := by
    have hf : ⌊(-1:ℝ) * 1000 + 1/2⌋ = -1000 := by
      rw [Int.floor_eq_iff]
      norm_num
    simp only [evalSimilarityField, JSNum.mul, JSNum.round, JSNum.div, hf]
    norm_num
  have hfb : generateFeedback (JSNum.num (-1)) [] [] = fbRevision := by
    have hf : ⌊(-1:ℝ) * 100 + 1/2⌋ = -100 := by
      rw [Int.floor_eq_iff]
      norm_num
    simp only [generateFeedback, JSNum.mul, JSNum.round, JSNum.ge, hf]
    norm_num
  have hred : (handleEvaluate PyOutcome.badStatus (HFOutcome.okArr [[1]])
      (HFOutcome.okArr [[-1]]) ⟨none, some ("m"), some ("s")⟩).1 =
      localEval (HFOutcome.okArr [[1]]) (HFOutcome.okArr [[-1]])
        ⟨none, some ("m"), some ("s")⟩ := rfl
  rw [hred]
  rw [show localEval (HFOutcome.okArr [[1]]) (HFOutcome.okArr [[-1]])
      ⟨none, some ("m"), some ("s")⟩ =
      EvalResponse.ok
        (evalScore (cosineSimilarity (toRealVec [(1:ℚ)]) (toRealVec [(-1:ℚ)])))
        (evalSimilarityField (cosineSimilarity (toRealVec [(1:ℚ)]) (toRealVec [(-1:ℚ)])))
        (generateFeedback (cosineSimilarity (toRealVec [(1:ℚ)]) (toRealVec [(-1:ℚ)])) [] [])
      from rfl]
  rw [show toRealVec [(1:ℚ)] = [(1:ℝ)] from by norm_num [toRealVec],
    show toRealVec [(-1:ℚ)] = [(-1:ℝ)] from by norm_num [toRealVec],
    hsim, hscore, hsimf, hfb]

/-- C9 amended: for any non-NaN cosine value `s ∈ [-1,1]` the response's
score is a number in `[0,5]` (it is clamped), while the similarity field
is only rounded to three decimals, not clamped into `[0,1]` — it stays in
`[-1,1]` and can be negative: the counterexample shows it is exactly `-1`
when `s = -1`. -/
theorem evalResult_bounds (s : ℝ) (h1 : -1 ≤ s) (h2 : s ≤ 1) :
    (∃ x, evalScore (JSNum.num s) = JSNum.num x ∧ 0 ≤ x ∧ x ≤ 5) ∧
    (∃ y, evalSimilarityField (JSNum.num s) = JSNum.num y ∧ -1 ≤ y ∧ y ≤ 1) := by
  constructor
  · refine ⟨Max.max 0 (Min.min 5 (((⌊s * 5 * 10 + 1/2⌋ : ℤ) : ℝ) / 10)), ?_, ?_, ?_⟩
    · simp [evalScore, JSNum.mul, JSNum.round, JSNum.div, JSNum.min, JSNum.max]
    · exact le_max_left 0 _
    · exact max_le (by norm_num) (le_trans (min_le_left _ _) (by norm_num))
  · refine ⟨((⌊s * 1000 + 1/2⌋ : ℤ) : ℝ) / 1000, ?_, ?_, ?_⟩
    · simp [evalSimilarityField, JSNum.mul, JSNum.round, JSNum.div]
    · have hz : (-1000 : ℤ) ≤ ⌊s * 1000 + 1/2⌋ := by
        apply Int.le_floor.mpr
        push_cast
        nlinarith
      rw [le_div_iff₀ (by norm_num : (0:ℝ) < 1000)]
      calc (-1:ℝ) * 1000 = ((-1000 : ℤ) : ℝ) := by norm_num
        _ ≤ _ := by exact_mod_cast hz
    · have hz : ⌊s * 1000 + 1/2⌋ < 1001 := by
        apply Int.floor_lt.mpr
        push_cast
        nlinarith
      rw [div_le_one (by norm_num : (0:ℝ) < 1000)]
      have hz' : ⌊s * 1000 + 1/2⌋ ≤ 1000 := Int.lt_add_one_iff.mp hz
      calc ((⌊s * 1000 + 1/2⌋ : ℤ) : ℝ) ≤ ((1000 : ℤ) : ℝ) := by exact_mod_cast hz'
        _ = 1000 := by norm_num

/-- C9 witness: the bounds instantiated at the cosine value `1/2`. -/
theorem evalResult_bounds_witness :
    (∃ x, evalScore (JSNum.num (1/2)) = JSNum.num x ∧ 0 ≤ x ∧ x ≤ 5) ∧
    (∃ y, evalSimilarityField (JSNum.num (1/2)) = JSNum.num y ∧ -1 ≤ y ∧ y ≤ 1) :=
  evalResult_bounds (1/2) (by norm_num) (by norm_num)

/-- C10: for equal-length vectors `cosineSimilarity` always produces a
real number, but with the first vector strictly longer (here `[1,1]` vs
`[1]`) the loop reads past the end of the second and the result is NaN —
neither 0 nor an error — and the response pipeline propagates that NaN
into both the score and the similarity fields. -/
theorem cosineSimilarity_overrun :
    (∀ a b : List ℝ, a.length = b.length → ∃ x, cosineSimilarity a b = JSNum.num x) ∧
    ([1, 1].length > [1].length ∧ cosineSimilarity [1, 1] [1] = JSNum.nan ∧
      JSNum.nan ≠ JSNum.num 0) ∧
    evalScore JSNum.nan = JSNum.nan ∧ evalSimilarityField JSNum.nan = JSNum.nan := by
  refine ⟨?_, ⟨by norm_num, ?_, fun hc => JSNum.noConfusion hc⟩, ?_, ?_⟩
  · intro a b h
    by_cases he : a.length = 0 ∨ b.length = 0
    · exact ⟨0, by rw [cosineSimilarity, if_pos he]⟩
    · rw [cosineSimilarity, if_neg he, cosLoop_spec a b a.length le_rfl (le_of_eq h)]
      dsimp only
      have hA : (0:ℝ) ≤ ∑ i in Finset.range a.length, a.getD i 0 * a.getD i 0 :=
        Finset.sum_nonneg fun i _ => mul_self_nonneg _
      have hB : (0:ℝ) ≤ ∑ i in Finset.range a.length, b.getD i 0 * b.getD i 0 :=
        Finset.sum_nonneg fun i _ => mul_self_nonneg _
      rw [JSNum.sqrt_num hA, JSNum.sqrt_num hB, JSNum.mul_num]
      by_cases hz : JSNum.num (Real.sqrt (∑ i in Finset.range a.length, a.getD i 0 * a.getD i 0) *
          Real.sqrt (∑ i in Finset.range a.length, b.getD i 0 * b.getD i 0)) = JSNum.num 0
      · exact ⟨0, by rw [if_pos hz]⟩
      · rw [if_neg hz, JSNum.div_num, if_neg (fun hc => hz (by rw [hc]))]
        exact ⟨_, rfl⟩
  · simp only [cosineSimilarity, List.length_cons, List.length_nil, cosLoop, jsGet,
      List.get?_cons_succ, List.get?_cons_zero, List.get?_nil,
      JSNum.add, JSNum.mul, JSNum.sqrt, JSNum.div]
    norm_num [Real.sqrt_one]
    exact fun h => JSNum.noConfusion h
  · simp [evalScore, JSNum.mul, JSNum.round, JSNum.div, JSNum.min, JSNum.max]
  · simp [evalSimilarityField, JSNum.mul, JSNum.round, JSNum.div]

/-- C10 witness: the equal-length part instantiated at `[2]`, `[3]`. -/
theorem cosineSimilarity_overrun_witness :
    ∃ x, cosineSimilarity [(2:ℝ)] [(3:ℝ)] = JSNum.num x :=
  cosineSimilarity_overrun.1 [2] [3] rfl
